import Mathlib

/-!
# GhostCrate publish/download pipeline — verification development

Shallow embedding of the publish/download/search core of the GhostCrate
package registry (`src/web/cargo_handlers.rs`, `src/storage/mod.rs`,
`src/db/mod.rs`), together with theorems settling the specification
claims about that core.

Modelling conventions:
* `Uuid::new_v4` identifiers are modelled by a fresh-id counter
  (`RegistryState.nextId`); the source assumes v4 uuids never collide.
* Archive bytes are `List Nat`.
* The SHA-256 hex digest (computed by the external `sha2` crate, a
  collaborator outside this repository) is a parameter
  `RegistryConfig.digest : Bytes → String`; the spec describes it as a
  pure deterministic function of the bytes, which is all the claims use.
* SQLite tables are lists of rows; queries are translated clause-for-clause
  (`WHERE name = ?` → `find?`, `UNIQUE(crate_id, version)` → duplicate
  check on insert, `LIKE` → ASCII-case-insensitive wildcard match,
  `ORDER BY downloads DESC, name ASC` → sort by that lexicographic order,
  `LIMIT`/`OFFSET` → `take`/`drop`).
* Fallible external effects (filesystem / S3 / sqlite connectivity) are
  driven by a per-request failure-injection record `ReqEnv`; `ReqEnv.ok`
  is the fault-free run.
* Columns that no modelled operation ever reads (timestamps, the
  JSON-serialized `keywords`/`categories`/`dependencies`/`features`
  blobs, `organization_id`) are omitted from the row types; the claims
  never mention them.
-/

namespace GhostCrate

/-- Raw archive bytes of a `.crate` file. -/
abbrev Bytes := List Nat

/-- `config::StorageBackend`: the two blob-store backends. -/
inductive StorageBackend where
  | localFs
  | s3
deriving DecidableEq, Repr

/-- Static configuration of the modelled server: which blob backend is
selected, and the content-digest function (the external `sha2` crate's
hex-encoded SHA-256, modelled as an arbitrary pure function). -/
structure RegistryConfig where
  backend : StorageBackend
  digest : Bytes → String

/-- A row of the `crates` table (`models::Crate`), restricted to the
columns the modelled operations read. -/
structure CrateRow where
  id : Nat
  name : String
  description : Option String
  homepage : Option String
  documentation : Option String
  repository : Option String
  license : Option String
  owner_id : Nat
  downloads : Nat
deriving DecidableEq, Repr

/-- A row of the `crate_versions` table (`models::CrateVersion`),
restricted to the columns the modelled operations read. -/
structure VersionRow where
  id : Nat
  crate_id : Nat
  version : String
  checksum : String
  file_size : Nat
  yanked : Bool
  license : Option String
  readme : Option String
deriving DecidableEq, Repr

/-- `models::PublishRequest`: the parsed `metadata` part of a publish
upload, restricted to the fields the modelled handlers read. -/
structure PublishRequest where
  name : String
  vers : String
  description : Option String
  homepage : Option String
  documentation : Option String
  readme : Option String
  license : Option String
  repository : Option String
deriving DecidableEq, Repr

/-- A blob is keyed by `(crate name, version)`; both backends derive the
physical key (`crates/{name}/{name}-{version}.crate` resp.
`crates/{name}/{version}/{name}-{version}.crate`) deterministically from
this pair. -/
abbrev BlobKey := String × String

/-- The combined state of the two stores: the blob store's contents, the
`crates` and `crate_versions` tables, and the fresh-id counter. -/
structure RegistryState where
  blobs : List (BlobKey × Bytes)
  crates : List CrateRow
  versions : List VersionRow
  nextId : Nat
deriving DecidableEq, Repr

/-- Initial state: empty stores. -/
def RegistryState.empty : RegistryState := ⟨[], [], [], 0⟩

/-- Failure injection for one request: which external operations
(filesystem / S3 write, sqlite queries, file open) fail during it. -/
structure ReqEnv where
  storeFails : Bool
  getCrateFails : Bool
  createCrateFails : Bool
  createVersionFails : Bool
  incrementFails : Bool
  fileOpenFails : Bool
deriving DecidableEq, Repr

/-- The fault-free request environment. -/
def ReqEnv.ok : ReqEnv := ⟨false, false, false, false, false, false⟩

/-- Look a blob up by key (first matching entry). -/
def blobLookup (bs : List (BlobKey × Bytes)) (k : BlobKey) : Option Bytes :=
  (bs.find? (fun e => e.1 == k)).map (fun e => e.2)

/-- Write a blob: `fs::write` / `put_object` overwrite any existing
object at the same key. -/
def blobPut (bs : List (BlobKey × Bytes)) (k : BlobKey) (v : Bytes) :
    List (BlobKey × Bytes) :=
  (k, v) :: bs.filter (fun e => !(e.1 == k))

/-- `db::get_crate_by_name`: `SELECT ... FROM crates WHERE name = ?1`
(exact, case-sensitive match; `name` is UNIQUE so `find?` is faithful). -/
def get_crate_by_name (crates : List CrateRow) (name : String) : Option CrateRow :=
  crates.find? (fun c => c.name == name)

/-- `db::create_crate`: INSERT a new `crates` row owned by `owner`, with
`downloads = 0`.  The handler only calls it after `get_crate_by_name`
returned `None`, so the `name` UNIQUE constraint cannot fire in the
sequential model. -/
def create_crate (s : RegistryState) (m : PublishRequest) (owner : Nat) :
    CrateRow × RegistryState :=
  let c : CrateRow :=
    { id := s.nextId, name := m.name, description := m.description,
      homepage := m.homepage, documentation := m.documentation,
      repository := m.repository, license := m.license,
      owner_id := owner, downloads := 0 }
  (c, { s with crates := c :: s.crates, nextId := s.nextId + 1 })

/-- `db::create_crate_version`: INSERT into `crate_versions`; fails on
the `UNIQUE(crate_id, version)` constraint or on an injected database
failure, in which case the state is unchanged. -/
def create_crate_version (env : ReqEnv) (s : RegistryState) (cid : Nat)
    (m : PublishRequest) (checksum : String) (fsize : Nat) :
    Option RegistryState :=
  if env.createVersionFails then none
  else if s.versions.any (fun v => v.crate_id == cid && v.version == m.vers) then none
  else
    let vr : VersionRow :=
      { id := s.nextId, crate_id := cid, version := m.vers,
        checksum := checksum, file_size := fsize, yanked := false,
        license := m.license, readme := m.readme }
    some { s with versions := vr :: s.versions, nextId := s.nextId + 1 }

/-- `db::increment_download_count`:
`UPDATE crates SET downloads = downloads + 1 WHERE id = ?1`. -/
def increment_download_count (s : RegistryState) (cid : Nat) : RegistryState :=
  { s with crates := s.crates.map (fun c =>
      if c.id == cid then { c with downloads := c.downloads + 1 } else c) }

/-- `Storage::store_crate`: write the archive under the `(name, version)`
key (local file or S3 object); overwrites an existing blob; an injected
backend failure leaves the store unchanged. -/
def store_crate (env : ReqEnv) (s : RegistryState) (name version : String)
    (data : Bytes) : Option RegistryState :=
  if env.storeFails then none
  else some { s with blobs := blobPut s.blobs (name, version) data }

/-- `Storage::get_crate_path(...).exists()` as used by `download_handler`:
for the local backend this checks the real file; for S3 `get_crate_path`
returns the placeholder path `s3://{name}/{version}`, which never exists
on the local filesystem. -/
def download_path_exists (cfg : RegistryConfig) (s : RegistryState)
    (name version : String) : Bool :=
  match cfg.backend with
  | .localFs => (blobLookup s.blobs (name, version)).isSome
  | .s3 => false

/-- `Storage::crate_exists`: the Blob Store existence probe (filesystem
`exists` resp. S3 `head_object`), honest for both backends. -/
def crate_exists (s : RegistryState) (name version : String) : Bool :=
  (blobLookup s.blobs (name, version)).isSome

deriving instance DecidableEq for Except

/-- HTTP status codes the modelled handlers produce. -/
inductive HStatus where
  | badRequest
  | forbidden
  | notFound
  | conflict
  | internalError
deriving DecidableEq, Repr

/-- `cargo_handlers::publish_handler`, after multipart parsing has split
the body into the optional `crate` bytes and `metadata` document:
compute the checksum, write the blob, resolve-or-create the crate row
(with the ownership check), then insert the version row.  Every
`map_err` in the source collapses the inner error to
`INTERNAL_SERVER_ERROR`. -/
def publish_handler (cfg : RegistryConfig) (env : ReqEnv) (userId : Nat)
    (crate_file : Option Bytes) (meta : Option PublishRequest)
    (s : RegistryState) : Except HStatus Unit × RegistryState :=
  match crate_file, meta with
  | none, _ => (.error .badRequest, s)
  | some _, none => (.error .badRequest, s)
  | some file, some m =>
    let checksum := cfg.digest file
    match store_crate env s m.name m.vers file with
    | none => (.error .internalError, s)
    | some s1 =>
      if env.getCrateFails then (.error .internalError, s1)
      else
        match get_crate_by_name s1.crates m.name with
        | some existing =>
          if existing.owner_id ≠ userId then (.error .forbidden, s1)
          else
            match create_crate_version env s1 existing.id m checksum file.length with
            | none => (.error .internalError, s1)
            | some s2 => (.ok (), s2)
        | none =>
          if env.createCrateFails then (.error .internalError, s1)
          else
            let cs := create_crate s1 m userId
            match create_crate_version env cs.2 cs.1.id m checksum file.length with
            | none => (.error .internalError, cs.2)
            | some s3 => (.ok (), s3)

/-- The bookkeeping step of `download_handler` (source lines 139–145):
`if let Ok(Some(crate_model)) = get_crate_by_name(..)` bump the download
counter; a lookup failure, a missing crate row, or an increment failure
is only logged and leaves the state alone. -/
def download_bookkeeping (env : ReqEnv) (crate_name : String)
    (s : RegistryState) : RegistryState :=
  if env.getCrateFails then s
  else
    match get_crate_by_name s.crates crate_name with
    | some c => if env.incrementFails then s else increment_download_count s c.id
    | none => s

/-- `cargo_handlers::download_handler`: 404 unless
`get_crate_path(...).exists()`; then the crate lookup + download-counter
bump, whose failure (or absence of a crate row) is only logged; then the
file is opened and streamed. -/
def download_handler (cfg : RegistryConfig) (env : ReqEnv)
    (crate_name version : String) (s : RegistryState) :
    Except HStatus Bytes × RegistryState :=
  if ¬ download_path_exists cfg s crate_name version then (.error .notFound, s)
  else
    let s1 := download_bookkeeping env crate_name s
    if env.fileOpenFails then (.error .internalError, s1)
    else
      match blobLookup s1.blobs (crate_name, version) with
      | some data => (.ok data, s1)
      | none => (.error .internalError, s1)

/-- One step of SQLite `LIKE` matching (ASCII-case-insensitive, `%` and
`_` wildcards), on character lists: pattern against subject. -/
def likeMatch : List Char → List Char → Bool
  | [], s => s.isEmpty
  | c :: p, s =>
    if c = '%' then
      likeMatch p s ||
        (match s with
         | [] => false
         | _ :: s' => likeMatch (c :: p) s')
    else
      match s with
      | [] => false
      | d :: s' => (c = '_' || c.toLower = d.toLower) && likeMatch p s'
termination_by p s => (s.length, p.length)

/-- SQLite `LIKE` on strings. -/
def sqlLike (pat s : String) : Bool := likeMatch pat.toList s.toList

/-- The `WHERE name LIKE ?1 OR description LIKE ?1` clause shared by
`db::search_crates` and `db::count_search_results`, with the bound
pattern `%{query}%` (a NULL description matches nothing). -/
def matchesSearch (q : String) (c : CrateRow) : Bool :=
  sqlLike ("%" ++ q ++ "%") c.name ||
    (match c.description with
     | some d => sqlLike ("%" ++ q ++ "%") d
     | none => false)

/-- The `ORDER BY downloads DESC, name ASC` order of `db::search_crates`
(SQLite BINARY collation on `name` = codepoint order). -/
def searchR (a b : CrateRow) : Prop :=
  b.downloads < a.downloads ∨ (a.downloads = b.downloads ∧ a.name ≤ b.name)

instance : DecidableRel searchR := fun a b => by
  unfold searchR; exact inferInstance

instance : IsTotal CrateRow searchR := by
  constructor
  intro a b
  rcases Nat.lt_trichotomy a.downloads b.downloads with h | h | h
  · exact Or.inr (Or.inl h)
  · rcases le_total a.name b.name with hn | hn
    · exact Or.inl (Or.inr ⟨h, hn⟩)
    · exact Or.inr (Or.inr ⟨h.symm, hn⟩)
  · exact Or.inl (Or.inl h)

instance : IsTrans CrateRow searchR := by
  constructor
  intro a b c hab hbc
  rcases hab with h1 | ⟨h1, h1n⟩ <;> rcases hbc with h2 | ⟨h2, h2n⟩
  · exact Or.inl (h2.trans h1)
  · exact Or.inl (h2 ▸ h1)
  · exact Or.inl (h1 ▸ h2)
  · exact Or.inr ⟨h1.trans h2, h1n.trans h2n⟩

/-- `db::search_crates`: filter by the LIKE clause, order by
`downloads DESC, name ASC`, apply OFFSET then LIMIT.  The handler only
ever passes non-negative limit/offset (SQLite treats a negative OFFSET
as 0 and our `Int.toNat` conversion in `search_handler` does the same). -/
def search_crates (q : String) (limit offset : Nat) (crates : List CrateRow) :
    List CrateRow :=
  (((crates.filter (fun c => matchesSearch q c)).insertionSort searchR).drop offset).take limit

/-- `db::count_search_results`:
`SELECT COUNT(*) FROM crates WHERE name LIKE ?1 OR description LIKE ?1`. -/
def count_search_results (q : String) (crates : List CrateRow) : Nat :=
  (crates.filter (fun c => matchesSearch q c)).length

/-- The query parameters of `cargo_handlers::search_handler`
(`q`, `per_page`, `page`, each optional; the numeric ones are `u32`). -/
structure SearchQuery where
  q : Option String
  per_page : Option Nat
  page : Option Nat
deriving DecidableEq, Repr

/-- `cargo_handlers::search_handler`: default `per_page` 10 capped at
100, default `page` 1, `offset = (page - 1) * per_page` computed in
`i64` (negative offsets — `page = 0` — behave like 0). Returns the page
of crates and the total matched count reported in `meta.total`. -/
def search_handler (params : SearchQuery) (crates : List CrateRow) :
    List CrateRow × Nat :=
  let query := params.q.getD ""
  let perPage := min (params.per_page.getD 10) 100
  let page : Int := (params.page.getD 1 : Nat)
  let offset : Int := (page - 1) * (perPage : Int)
  (search_crates query perPage offset.toNat crates,
   count_search_results query crates)

/-! Concrete demonstration data used by counterexamples and witnesses. -/

/-- A concrete stand-in for the digest parameter (definite, injective on
the byte lists used below): length and byte sum, dot-separated. -/
def demoDigest : Bytes → String :=
  fun b => toString b.length ++ "." ++ toString (b.foldl (fun a x => a + x) 0)

/-- Local-filesystem configuration with the demonstration digest. -/
def demoCfgLocal : RegistryConfig := ⟨.localFs, demoDigest⟩

/-- S3 configuration with the demonstration digest. -/
def demoCfgS3 : RegistryConfig := ⟨.s3, demoDigest⟩

/-- Metadata of the demonstration publish (`acme-widgets 1.0.0`). -/
def demoMeta : PublishRequest :=
  { name := "acme-widgets", vers := "1.0.0", description := none, homepage := none,
    documentation := none, readme := none, license := none, repository := none }

/-! Helper lemmas about the blob map and the bookkeeping step. -/

/-- `find?` ignores entries removed by the `≠ k` filter as long as the
sought key differs from `k`. -/
theorem blobFind_filter (bs : List (BlobKey × Bytes)) (k k' : BlobKey)
    (h : k' ≠ k) :
    (bs.filter (fun e => !(e.1 == k))).find? (fun e => e.1 == k') =
      bs.find? (fun e => e.1 == k') := by
  induction bs with
  | nil => rfl
  | cons e bs ih =>
    rw [List.filter_cons]
    by_cases he : e.1 = k
    · have hpe : (e.1 == k') = false := by
        rw [he]
        simp only [beq_eq_false_iff_ne, ne_eq]
        exact fun hh => h hh.symm
      rw [if_neg (by rw [he]; simp), List.find?_cons, hpe]
      exact ih.trans rfl
    · rw [if_pos (by simp [he])]
      by_cases he' : (e.1 == k') = true
      · rw [List.find?_cons, List.find?_cons, he']
      · have hpe : (e.1 == k') = false := by
          simpa using he'
        rw [List.find?_cons, List.find?_cons, hpe]
        exact ih

/-- Reading the blob map after a write. -/
theorem blobLookup_blobPut (bs : List (BlobKey × Bytes)) (k k' : BlobKey)
    (v : Bytes) :
    blobLookup (blobPut bs k v) k' =
      if k' = k then some v else blobLookup bs k' := by
  unfold blobLookup blobPut
  by_cases h : k' = k
  · subst h
    simp [List.find?_cons]
  · rw [if_neg h]
    have hk : ((k, v).1 == k') = false := beq_false_of_ne (fun hh => h hh.symm)
    rw [List.find?_cons_of_neg _ (by simp [hk]), blobFind_filter bs k k' h]

/-- A write never makes a present blob absent. -/
theorem blobLookup_isSome_blobPut (bs : List (BlobKey × Bytes))
    (k k' : BlobKey) (v : Bytes)
    (h : (blobLookup bs k').isSome = true) :
    (blobLookup (blobPut bs k v) k').isSome = true := by
  rw [blobLookup_blobPut]
  by_cases hk : k' = k <;> simp [hk, h]

/-- The bookkeeping step never touches the blob store. -/
theorem download_bookkeeping_blobs (env : ReqEnv) (n : String)
    (s : RegistryState) : (download_bookkeeping env n s).blobs = s.blobs := by
  unfold download_bookkeeping
  split
  · rfl
  · split
    · split <;> rfl
    · rfl

/-- The bookkeeping step never touches the version table. -/
theorem download_bookkeeping_versions (env : ReqEnv) (n : String)
    (s : RegistryState) : (download_bookkeeping env n s).versions = s.versions := by
  unfold download_bookkeeping
  split
  · rfl
  · split
    · split <;> rfl
    · rfl

/-- With the local backend and a present blob, `download_handler` streams
exactly the stored bytes (whatever the bookkeeping step did). -/
theorem download_local_present (cfg : RegistryConfig) (env : ReqEnv)
    (hb : cfg.backend = .localFs) (hopen : env.fileOpenFails = false)
    (n v : String) (s : RegistryState) (data : Bytes)
    (hblob : blobLookup s.blobs (n, v) = some data) :
    (download_handler cfg env n v s).1 = .ok data := by
  have hex : download_path_exists cfg s n v = true := by
    unfold download_path_exists
    rw [hb, hblob]
    rfl
  unfold download_handler
  rw [hex, hopen]
  simp [download_bookkeeping_blobs, hblob]

/-! State well-formedness and the blob-completeness invariant. -/

/-- Well-formedness maintained by the pipeline: every id in use is below
the fresh-id counter (`Uuid::new_v4` values never collide), and crate
rows have pairwise-distinct ids (`id` is the PRIMARY KEY). -/
def StateWF (s : RegistryState) : Prop :=
  (∀ c ∈ s.crates, c.id < s.nextId) ∧
  (∀ vr ∈ s.versions, vr.crate_id < s.nextId) ∧
  s.crates.Pairwise (fun a b => a.id ≠ b.id)

/-- Every version row visible in the catalog has its archive blob
present in the blob store (under the owning crate's name and the row's
version). -/
def BlobComplete (s : RegistryState) : Prop :=
  ∀ vr ∈ s.versions, ∀ c ∈ s.crates, c.id = vr.crate_id →
    (blobLookup s.blobs (c.name, vr.version)).isSome = true

instance (s : RegistryState) : Decidable (StateWF s) := by
  unfold StateWF; exact inferInstance

instance (s : RegistryState) : Decidable (BlobComplete s) := by
  unfold BlobComplete; exact inferInstance

/-- Two crate rows of a well-formed state with the same id are the same
row. -/
theorem crate_id_inj {s : RegistryState} (hwf : StateWF s) {a b : CrateRow}
    (ha : a ∈ s.crates) (hb : b ∈ s.crates) (hid : a.id = b.id) : a = b := by
  rcases hwf with ⟨-, -, hpw⟩
  rcases List.Pairwise.forall_of_forall (R := fun a b : CrateRow => a.id = b.id → a = b)
      (fun x y hxy hid2 => (hxy hid2.symm).symm)
      (fun x _ _ => rfl)
      (hpw.imp (fun hne hid2 => absurd hid2 hne)) ha hb with h
  exact h hid

/-- `get_crate_by_name` only returns members whose name is the one
sought. -/
theorem get_crate_by_name_spec {crates : List CrateRow} {n : String}
    {c : CrateRow} (h : get_crate_by_name crates n = some c) :
    c ∈ crates ∧ c.name = n := by
  unfold get_crate_by_name at h
  have hp := List.find?_some h
  exact ⟨List.mem_of_find?_eq_some h, by simpa using hp⟩

/-- C1 (amended): restricted to the local-filesystem backend — for
every valid `(name, version, bytes)` accepted by a successful publish,
the subsequent download returns exactly the published bytes, and the
catalog's new `crate_versions` row records the digest of those bytes
(and their length) for a crate row carrying the published name.  (On
the S3 backend the same publish succeeds but the download returns
`NotFound`: `publish_download_roundtrip_cex`.) -/
theorem publish_download_roundtrip
    (cfg : RegistryConfig) (env env' : ReqEnv) (hb : cfg.backend = .localFs)
    (hopen : env'.fileOpenFails = false)
    (u : Nat) (m : PublishRequest) (f : Bytes) (s s' : RegistryState)
    (hpub : publish_handler cfg env u (some f) (some m) s = (.ok (), s')) :
    (download_handler cfg env' m.name m.vers s').1 = .ok f ∧
    ∃ vr ∈ s'.versions,
      vr.version = m.vers ∧ vr.checksum = cfg.digest f ∧ vr.file_size = f.length ∧
      ∃ c ∈ s'.crates, c.name = m.name ∧ vr.crate_id = c.id := by
  unfold publish_handler store_crate at hpub
  cases hsf : env.storeFails with
  | true => simp [hsf] at hpub
  | false =>
  simp only [hsf, Bool.false_eq_true, if_false] at hpub
  cases hgf : env.getCrateFails with
  | true => simp [hgf] at hpub
  | false =>
  simp only [hgf, Bool.false_eq_true, if_false] at hpub
  cases hc : get_crate_by_name s.crates m.name with
  | some existing =>
    simp only [hc] at hpub
    by_cases how : existing.owner_id = u
    · simp only [how, ne_eq, not_true_eq_false, if_false] at hpub
      unfold create_crate_version at hpub
      cases hvf : env.createVersionFails with
      | true => simp [hvf] at hpub
      | false =>
      simp only [hvf, Bool.false_eq_true, if_false] at hpub
      cases hdup : s.versions.any (fun v => v.crate_id == existing.id && v.version == m.vers) with
      | true => simp [hdup] at hpub
      | false =>
      simp only [hdup, Bool.false_eq_true, if_false] at hpub
      obtain ⟨-, hs'⟩ := Prod.mk.injEq .. ▸ hpub
      subst hs'
      constructor
      · apply download_local_present cfg env' hb hopen
        simp [blobLookup_blobPut]
      · exact ⟨_, List.mem_cons_self .., rfl, rfl, rfl, existing,
          (get_crate_by_name_spec hc).1, (get_crate_by_name_spec hc).2, rfl⟩
    · simp [how] at hpub
  | none =>
    simp only [hc] at hpub
    dsimp only [create_crate, create_crate_version] at hpub
    cases hccf : env.createCrateFails with
    | true => simp [hccf] at hpub
    | false =>
    simp only [hccf, Bool.false_eq_true, if_false] at hpub
    cases hvf : env.createVersionFails with
    | true => simp [hvf] at hpub
    | false =>
    simp only [hvf, Bool.false_eq_true, if_false] at hpub
    cases hdup : s.versions.any (fun v => v.crate_id == s.nextId && v.version == m.vers) with
    | true => simp [hdup] at hpub
    | false =>
    simp only [hdup, Bool.false_eq_true, if_false] at hpub
    obtain ⟨-, hs'⟩ := Prod.mk.injEq .. ▸ hpub
    subst hs'
    constructor
    · apply download_local_present cfg env' hb hopen
      simp [blobLookup_blobPut]
    · exact ⟨_, List.mem_cons_self .., rfl, rfl, rfl, _,
        List.mem_cons_self .., rfl, rfl⟩

/-- The catalog state after the successful demonstration publish of
`acme-widgets 1.0.0` (bytes `[1, 2, 3]`) by user 7. -/
def demoState1 : RegistryState :=
  (publish_handler demoCfgLocal ReqEnv.ok 7 (some [1, 2, 3]) (some demoMeta)
    RegistryState.empty).2

/-- The crate row created by the demonstration publish. -/
def demoCrateRow : CrateRow :=
  ⟨0, "acme-widgets", none, none, none, none, none, 7, 0⟩

/-- Witness for C1: the concrete publish of `acme-widgets 1.0.0` with
bytes `[1, 2, 3]` succeeds, and the roundtrip theorem applies to it. -/
theorem publish_download_roundtrip_witness :
    demoCfgLocal.backend = .localFs ∧ ReqEnv.ok.fileOpenFails = false ∧
    publish_handler demoCfgLocal ReqEnv.ok 7 (some [1, 2, 3]) (some demoMeta)
        RegistryState.empty = (.ok (), demoState1) ∧
    ((download_handler demoCfgLocal ReqEnv.ok demoMeta.name demoMeta.vers demoState1).1 =
        .ok [1, 2, 3] ∧
      ∃ vr ∈ demoState1.versions,
        vr.version = demoMeta.vers ∧ vr.checksum = demoCfgLocal.digest [1, 2, 3] ∧
        vr.file_size = ([1, 2, 3] : Bytes).length ∧
        ∃ c ∈ demoState1.crates, c.name = demoMeta.name ∧ vr.crate_id = c.id) :=
  ⟨rfl, rfl, by decide,
   publish_download_roundtrip demoCfgLocal ReqEnv.ok ReqEnv.ok rfl rfl 7 demoMeta
     [1, 2, 3] RegistryState.empty demoState1 (by decide)⟩

/-- C1 counterexample: on an S3 deployment the very same fresh publish
of `acme-widgets 1.0.0` fully succeeds — blob uploaded, crate and
version rows created, checksum recorded — yet the subsequent
`download(name, version)` returns 404 `NotFound` instead of the
published bytes, because `download_handler` tests the placeholder local
path for S3 blobs.  So the claim, which covers every deployment, is
false as stated. -/
theorem publish_download_roundtrip_cex :
    let r1 := publish_handler demoCfgS3 ReqEnv.ok 7 (some [1, 2, 3]) (some demoMeta)
      RegistryState.empty
    r1.1 = .ok () ∧
    blobLookup r1.2.blobs ("acme-widgets", "1.0.0") = some [1, 2, 3] ∧
    r1.2.versions.map VersionRow.checksum = [demoDigest [1, 2, 3]] ∧
    (download_handler demoCfgS3 ReqEnv.ok demoMeta.name demoMeta.vers r1.2).1 =
      .error .notFound ∧
    (download_handler demoCfgS3 ReqEnv.ok demoMeta.name demoMeta.vers r1.2).1 ≠
      .ok [1, 2, 3] := by
  decide

/-- C2 counterexample: republishing `acme-widgets 1.0.0` with different
bytes `[9, 9]` by the same owner fails with `internalError` (500) — not
`conflict` — and the stored blob has been overwritten with the second
attempt's bytes, while the recorded checksum still belongs to the first
bytes.  This falsifies both the `Conflict` status and the
"stored bytes remain unchanged" parts of the claim. -/
theorem republish_conflict_cex :
    let r2 := publish_handler demoCfgLocal ReqEnv.ok 7 (some [9, 9]) (some demoMeta)
      demoState1
    (publish_handler demoCfgLocal ReqEnv.ok 7 (some [1, 2, 3]) (some demoMeta)
        RegistryState.empty).1 = .ok () ∧
    blobLookup demoState1.blobs ("acme-widgets", "1.0.0") = some [1, 2, 3] ∧
    r2.1 = .error .internalError ∧
    r2.1 ≠ .error .conflict ∧
    blobLookup r2.2.blobs ("acme-widgets", "1.0.0") = some [9, 9] ∧
    r2.2.versions.map VersionRow.checksum = [demoDigest [1, 2, 3]] := by
  decide

/-- C2 (amended): a fault-free second publish of an existing
`(name, version)` by the owner fails with `internalError` (the
`UNIQUE(crate_id, version)` violation is mapped to 500, not 409
`Conflict`) and leaves both catalog tables — in particular the recorded
checksum — unchanged, but the stored archive bytes have already been
overwritten with the second attempt's bytes. -/
theorem republish_fails_catalog_unchanged_blob_overwritten
    (cfg : RegistryConfig) (u : Nat) (m : PublishRequest) (f2 : Bytes)
    (s : RegistryState) (c : CrateRow)
    (hc : get_crate_by_name s.crates m.name = some c)
    (howner : c.owner_id = u)
    (hdup : s.versions.any (fun v => v.crate_id == c.id && v.version == m.vers) = true) :
    publish_handler cfg ReqEnv.ok u (some f2) (some m) s =
      (.error .internalError,
       { s with blobs := blobPut s.blobs (m.name, m.vers) f2 }) := by
  unfold publish_handler store_crate create_crate_version
  simp only [ReqEnv.ok, Bool.false_eq_true, if_false, hc]
  rw [if_neg (by rw [howner]; simp)]
  simp only [hdup, if_true]

/-- Witness for the amended C2 theorem, at the demonstration state. -/
theorem republish_fails_catalog_unchanged_blob_overwritten_witness :
    get_crate_by_name demoState1.crates demoMeta.name = some demoCrateRow ∧
    demoCrateRow.owner_id = 7 ∧
    demoState1.versions.any
      (fun v => v.crate_id == demoCrateRow.id && v.version == demoMeta.vers) = true ∧
    publish_handler demoCfgLocal ReqEnv.ok 7 (some [9, 9]) (some demoMeta) demoState1 =
      (.error .internalError,
       { demoState1 with
          blobs := blobPut demoState1.blobs (demoMeta.name, demoMeta.vers) [9, 9] }) :=
  ⟨by decide, by decide, by decide,
   republish_fails_catalog_unchanged_blob_overwritten demoCfgLocal 7 demoMeta [9, 9]
     demoState1 demoCrateRow (by decide) (by decide) (by decide)⟩

/-- C3 (code bug): with the S3 backend, even though the Blob Store's own
existence probe (`Storage::crate_exists`, i.e. `head_object`) reports
the archive present, `download_handler` answers 404 `NotFound` — it
branches on `get_crate_path(...).exists()`, whose S3 arm is the
placeholder path `s3://{name}/{version}` that never exists on the local
filesystem, so an S3-stored blob is never streamed. -/
theorem s3_blob_present_download_notFound :
    let s : RegistryState := ⟨[(("acme-widgets", "1.0.0"), [1, 2, 3])], [], [], 0⟩
    crate_exists s "acme-widgets" "1.0.0" = true ∧
    download_handler demoCfgS3 ReqEnv.ok "acme-widgets" "1.0.0" s =
      (.error .notFound, s) := by
  decide

/-- C4 counterexample: after the failed republish with bytes `[9, 9]`,
the catalog still shows the `acme-widgets 1.0.0` version row with the
checksum of `[1, 2, 3]`, yet the blob stored under that key is `[9, 9]`,
whose digest differs — the "matching checksum" part of the invariant is
violated by the blob-write-before-catalog-check ordering. -/
theorem version_checksum_invariant_cex :
    let r2 := publish_handler demoCfgLocal ReqEnv.ok 7 (some [9, 9]) (some demoMeta)
      demoState1
    r2.1 = .error .internalError ∧
    r2.2.crates.map CrateRow.id = [0] ∧
    r2.2.crates.map CrateRow.name = ["acme-widgets"] ∧
    r2.2.versions.map VersionRow.crate_id = [0] ∧
    r2.2.versions.map VersionRow.version = ["1.0.0"] ∧
    r2.2.versions.map VersionRow.checksum = [demoDigest [1, 2, 3]] ∧
    blobLookup r2.2.blobs ("acme-widgets", "1.0.0") = some [9, 9] ∧
    demoDigest [9, 9] ≠ demoDigest [1, 2, 3] := by
  decide

/-- `StateWF` only constrains the catalog tables, so a blob-store-only
update preserves it. -/
theorem StateWF_blobs_only {s : RegistryState} (bs : List (BlobKey × Bytes))
    (h : StateWF s) : StateWF { s with blobs := bs } := h

/-- A blob write preserves blob-completeness. -/
theorem BlobComplete_blobPut {s : RegistryState} (k : BlobKey) (v : Bytes)
    (h : BlobComplete s) : BlobComplete { s with blobs := blobPut s.blobs k v } := by
  intro vr hvr c hcm hid
  exact blobLookup_isSome_blobPut _ _ _ _ (h vr hvr c hcm hid)

/-- C4 (amended): a blob-write failure aborts the publish with no
mutation at all (in particular no catalog mutation — no orphaned
metadata), and every publish preserves well-formedness and the
blob-existence half of the invariant: every version row visible in the
catalog has its archive blob present in the Blob Store.  (The
matching-checksum half is refuted by `version_checksum_invariant_cex`.) -/
theorem publish_blob_write_ordering
    (cfg : RegistryConfig) (env : ReqEnv) (u : Nat) (f : Bytes)
    (m : PublishRequest) (s : RegistryState)
    (hwf : StateWF s) (hbc : BlobComplete s) :
    (env.storeFails = true →
      publish_handler cfg env u (some f) (some m) s = (.error .internalError, s)) ∧
    StateWF (publish_handler cfg env u (some f) (some m) s).2 ∧
    BlobComplete (publish_handler cfg env u (some f) (some m) s).2 := by
  constructor
  · intro h
    unfold publish_handler store_crate
    rw [h]
    simp
  unfold publish_handler store_crate
  cases hsf : env.storeFails with
  | true => exact ⟨hwf, hbc⟩
  | false =>
  simp only [hsf, Bool.false_eq_true, if_false]
  cases hgf : env.getCrateFails with
  | true =>
    simp only [hgf, if_true]
    exact ⟨StateWF_blobs_only _ hwf, BlobComplete_blobPut _ _ hbc⟩
  | false =>
  simp only [hgf, Bool.false_eq_true, if_false]
  cases hc : get_crate_by_name s.crates m.name with
  | some existing =>
    simp only [hc]
    have hex := (get_crate_by_name_spec hc).1
    have hexn := (get_crate_by_name_spec hc).2
    by_cases how : existing.owner_id = u
    · simp only [how, ne_eq, not_true_eq_false, if_false]
      unfold create_crate_version
      cases hvf : env.createVersionFails with
      | true =>
        simp only [hvf, if_true]
        exact ⟨StateWF_blobs_only _ hwf, BlobComplete_blobPut _ _ hbc⟩
      | false =>
      simp only [hvf, Bool.false_eq_true, if_false]
      cases hdup : s.versions.any (fun v => v.crate_id == existing.id && v.version == m.vers) with
      | true =>
        simp only [hdup, if_true]
        exact ⟨StateWF_blobs_only _ hwf, BlobComplete_blobPut _ _ hbc⟩
      | false =>
      simp only [hdup, Bool.false_eq_true, if_false]
      obtain ⟨hwc, hwv, hpw⟩ := hwf
      refine ⟨⟨?_, ?_, hpw⟩, ?_⟩
      · intro c hcm
        exact Nat.lt_succ_of_lt (hwc c hcm)
      · intro vr hvr
        rcases List.mem_cons.mp hvr with h | h
        · rw [h]
          exact Nat.lt_succ_of_lt (hwc existing hex)
        · exact Nat.lt_succ_of_lt (hwv vr h)
      · intro vr hvr c hcm hid
        rcases List.mem_cons.mp hvr with h | h
        · have hce : c = existing := crate_id_inj ⟨hwc, hwv, hpw⟩ hcm hex (by rw [hid, h])
          rw [hce, h, hexn]
          simp [blobLookup_blobPut]
        · exact blobLookup_isSome_blobPut _ _ _ _ (hbc vr h c hcm hid)
    · rw [if_pos how]
      exact ⟨StateWF_blobs_only _ hwf, BlobComplete_blobPut _ _ hbc⟩
  | none =>
    simp only [hc]
    dsimp only [create_crate, create_crate_version]
    cases hccf : env.createCrateFails with
    | true =>
      simp only [hccf, if_true]
      exact ⟨StateWF_blobs_only _ hwf, BlobComplete_blobPut _ _ hbc⟩
    | false =>
    simp only [hccf, Bool.false_eq_true, if_false]
    cases hvf : env.createVersionFails with
    | true =>
      simp only [hvf, if_true]
      refine ⟨⟨?_, ?_, ?_⟩, ?_⟩
      · intro c hcm
        rcases List.mem_cons.mp hcm with h | h
        · rw [h]; dsimp only; omega
        · have := hwf.1 c h; dsimp only; omega
      · intro vr hvr
        have := hwf.2.1 vr hvr; dsimp only; omega
      · refine List.Pairwise.cons ?_ hwf.2.2
        intro b hb
        have := hwf.1 b hb
        dsimp only
        omega
      · intro vr hvr c hcm hid
        rcases List.mem_cons.mp hcm with h | h
        · have h1 := hwf.2.1 vr hvr
          rw [h] at hid
          dsimp only at hid
          omega
        · exact blobLookup_isSome_blobPut _ _ _ _ (hbc vr hvr c h hid)
    | false =>
    simp only [hvf, Bool.false_eq_true, if_false]
    cases hdup : s.versions.any (fun v => v.crate_id == s.nextId && v.version == m.vers) with
    | true =>
      simp only [hdup, if_true]
      refine ⟨⟨?_, ?_, ?_⟩, ?_⟩
      · intro c hcm
        rcases List.mem_cons.mp hcm with h | h
        · rw [h]; dsimp only; omega
        · have := hwf.1 c h; dsimp only; omega
      · intro vr hvr
        have := hwf.2.1 vr hvr; dsimp only; omega
      · refine List.Pairwise.cons ?_ hwf.2.2
        intro b hb
        have := hwf.1 b hb
        dsimp only
        omega
      · intro vr hvr c hcm hid
        rcases List.mem_cons.mp hcm with h | h
        · have h1 := hwf.2.1 vr hvr
          rw [h] at hid
          dsimp only at hid
          omega
        · exact blobLookup_isSome_blobPut _ _ _ _ (hbc vr hvr c h hid)
    | false =>
    simp only [hdup, Bool.false_eq_true, if_false]
    refine ⟨⟨?_, ?_, ?_⟩, ?_⟩
    · intro c hcm
      rcases List.mem_cons.mp hcm with h | h
      · rw [h]; dsimp only; omega
      · have := hwf.1 c h; dsimp only; omega
    · intro vr hvr
      rcases List.mem_cons.mp hvr with h | h
      · rw [h]; dsimp only; omega
      · have := hwf.2.1 vr h; dsimp only; omega
    · refine List.Pairwise.cons ?_ hwf.2.2
      intro b hb
      have := hwf.1 b hb
      dsimp only
      omega
    · intro vr hvr c hcm hid
      rcases List.mem_cons.mp hvr with h | h
      · rcases List.mem_cons.mp hcm with h2 | h2
        · rw [h2, h]
          simp [blobLookup_blobPut]
        · have := hwf.1 c h2
          rw [h] at hid
          dsimp only at hid
          omega
      · rcases List.mem_cons.mp hcm with h2 | h2
        · have := hwf.2.1 vr h
          rw [h2] at hid
          dsimp only at hid
          omega
        · exact blobLookup_isSome_blobPut _ _ _ _ (hbc vr h c h2 hid)

/-- Witness for the amended C4 theorem, at the demonstration state. -/
theorem publish_blob_write_ordering_witness :
    StateWF demoState1 ∧ BlobComplete demoState1 ∧
    ((⟨true, false, false, false, false, false⟩ : ReqEnv).storeFails = true →
      publish_handler demoCfgLocal ⟨true, false, false, false, false, false⟩ 7
          (some [4, 5]) (some demoMeta) demoState1 =
        (.error .internalError, demoState1)) ∧
    StateWF (publish_handler demoCfgLocal ⟨true, false, false, false, false, false⟩ 7
      (some [4, 5]) (some demoMeta) demoState1).2 ∧
    BlobComplete (publish_handler demoCfgLocal ⟨true, false, false, false, false, false⟩ 7
      (some [4, 5]) (some demoMeta) demoState1).2 :=
  ⟨by decide, by decide,
   (publish_blob_write_ordering demoCfgLocal ⟨true, false, false, false, false, false⟩ 7
     [4, 5] demoMeta demoState1 (by decide) (by decide)).1,
   (publish_blob_write_ordering demoCfgLocal ⟨true, false, false, false, false, false⟩ 7
     [4, 5] demoMeta demoState1 (by decide) (by decide)).2.1,
   (publish_blob_write_ordering demoCfgLocal ⟨true, false, false, false, false, false⟩ 7
     [4, 5] demoMeta demoState1 (by decide) (by decide)).2.2⟩

/-- C5: a publish of an already-registered name by a principal other
than its owner never creates a version row (under any combination of
injected faults — whether or not the blob was written), and in a run
where the blob write and crate lookup themselves succeed, it fails with
403 `Forbidden`. -/
theorem nonowner_publish_forbidden_no_version
    (cfg : RegistryConfig) (env : ReqEnv) (u : Nat) (f : Bytes)
    (m : PublishRequest) (s : RegistryState) (c : CrateRow)
    (hc : get_crate_by_name s.crates m.name = some c)
    (howner : c.owner_id ≠ u) :
    (publish_handler cfg env u (some f) (some m) s).2.versions = s.versions ∧
    (env.storeFails = false → env.getCrateFails = false →
      (publish_handler cfg env u (some f) (some m) s).1 = .error .forbidden) := by
  unfold publish_handler store_crate
  cases hsf : env.storeFails with
  | true =>
    refine ⟨rfl, ?_⟩
    intro h1 _
    simp at h1
  | false =>
  simp only [hsf, Bool.false_eq_true, if_false]
  cases hgf : env.getCrateFails with
  | true =>
    refine ⟨by simp, ?_⟩
    intro _ h2
    simp at h2
  | false =>
  simp only [hgf, Bool.false_eq_true, if_false, hc]
  rw [if_pos howner]
  exact ⟨rfl, fun _ _ => rfl⟩

/-- Witness for C5: user 8 republishing user 7's `acme-widgets`. -/
theorem nonowner_publish_forbidden_no_version_witness :
    get_crate_by_name demoState1.crates demoMeta.name = some demoCrateRow ∧
    demoCrateRow.owner_id ≠ 8 ∧
    ((publish_handler demoCfgLocal ReqEnv.ok 8 (some [4, 4]) (some demoMeta)
        demoState1).2.versions = demoState1.versions ∧
      (ReqEnv.ok.storeFails = false → ReqEnv.ok.getCrateFails = false →
        (publish_handler demoCfgLocal ReqEnv.ok 8 (some [4, 4]) (some demoMeta)
          demoState1).1 = .error .forbidden)) :=
  ⟨by decide, by decide,
   nonowner_publish_forbidden_no_version demoCfgLocal ReqEnv.ok 8 [4, 4] demoMeta
     demoState1 demoCrateRow (by decide) (by decide)⟩

/-- C6: for every query, limit and offset, `search_crates` returns at
most `limit` rows, pairwise ordered by downloads descending with ties
broken by name ascending, and `count_search_results` reports exactly the
number of all rows matching the query — independent of limit/offset,
which it does not even consume. -/
theorem search_limit_order_count (q : String) (limit offset : Nat)
    (crates : List CrateRow) :
    (search_crates q limit offset crates).length ≤ limit ∧
    (search_crates q limit offset crates).Pairwise searchR ∧
    count_search_results q crates =
      (crates.filter (fun c => matchesSearch q c)).length := by
  refine ⟨?_, ?_, rfl⟩
  · unfold search_crates
    rw [List.length_take]
    exact Nat.min_le_left _ _
  · unfold search_crates
    have hs : ((crates.filter (fun c => matchesSearch q c)).insertionSort searchR).Pairwise
        searchR := List.sorted_insertionSort searchR _
    exact hs.sublist ((List.take_sublist _ _).trans (List.drop_sublist _ _))

/-- C7: a download of a present blob (local backend) succeeds with the
stored bytes even when the crate lookup or the download-counter bump
fails — bookkeeping failures are logged, never surfaced. -/
theorem download_succeeds_despite_bookkeeping_failure
    (cfg : RegistryConfig) (env : ReqEnv) (hb : cfg.backend = .localFs)
    (hopen : env.fileOpenFails = false)
    (hfail : env.getCrateFails = true ∨ env.incrementFails = true)
    (n v : String) (s : RegistryState) (data : Bytes)
    (hblob : blobLookup s.blobs (n, v) = some data) :
    (download_handler cfg env n v s).1 = .ok data :=
  download_local_present cfg env hb hopen n v s data hblob

/-- Witness for C7: increment failure injected on the demonstration
state; the download still returns the archive. -/
theorem download_succeeds_despite_bookkeeping_failure_witness :
    demoCfgLocal.backend = .localFs ∧
    (⟨false, false, false, false, true, false⟩ : ReqEnv).fileOpenFails = false ∧
    ((⟨false, false, false, false, true, false⟩ : ReqEnv).getCrateFails = true ∨
      (⟨false, false, false, false, true, false⟩ : ReqEnv).incrementFails = true) ∧
    blobLookup demoState1.blobs ("acme-widgets", "1.0.0") = some [1, 2, 3] ∧
    (download_handler demoCfgLocal ⟨false, false, false, false, true, false⟩
      "acme-widgets" "1.0.0" demoState1).1 = .ok [1, 2, 3] :=
  ⟨rfl, rfl, Or.inr rfl, by decide,
   download_succeeds_despite_bookkeeping_failure demoCfgLocal
     ⟨false, false, false, false, true, false⟩ rfl rfl (Or.inr rfl)
     "acme-widgets" "1.0.0" demoState1 [1, 2, 3] (by decide)⟩

/-- C8: a download whose blob is absent (local backend) answers 404 and
leaves the whole state — in particular the download counter — untouched. -/
theorem download_absent_notFound_no_mutation
    (cfg : RegistryConfig) (env : ReqEnv) (hb : cfg.backend = .localFs)
    (n v : String) (s : RegistryState)
    (hblob : blobLookup s.blobs (n, v) = none) :
    download_handler cfg env n v s = (.error .notFound, s) := by
  unfold download_handler
  have hex : download_path_exists cfg s n v = false := by
    unfold download_path_exists
    rw [hb, hblob]
    rfl
  rw [hex]
  simp

/-- Witness for C8: downloading the unpublished `acme-widgets 2.0.0`. -/
theorem download_absent_notFound_no_mutation_witness :
    demoCfgLocal.backend = .localFs ∧
    blobLookup demoState1.blobs ("acme-widgets", "2.0.0") = none ∧
    download_handler demoCfgLocal ReqEnv.ok "acme-widgets" "2.0.0" demoState1 =
      (.error .notFound, demoState1) :=
  ⟨rfl, by decide,
   download_absent_notFound_no_mutation demoCfgLocal ReqEnv.ok rfl
     "acme-widgets" "2.0.0" demoState1 (by decide)⟩

/-- C9: a blob present in the local store is downloadable even when no
crate row of that name exists in the catalog — existence is decided by
the blob store alone, so an orphaned blob is served; only the download
counter bump is skipped (the state is returned unchanged). -/
theorem orphan_blob_downloadable
    (cfg : RegistryConfig) (env : ReqEnv) (hb : cfg.backend = .localFs)
    (hopen : env.fileOpenFails = false)
    (n v : String) (s : RegistryState) (data : Bytes)
    (hblob : blobLookup s.blobs (n, v) = some data)
    (hnoc : get_crate_by_name s.crates n = none) :
    download_handler cfg env n v s = (.ok data, s) := by
  unfold download_handler
  have hex : download_path_exists cfg s n v = true := by
    unfold download_path_exists
    rw [hb, hblob]
    rfl
  have hbk : download_bookkeeping env n s = s := by
    unfold download_bookkeeping
    rw [hnoc]
    split <;> rfl
  rw [hex, hopen]
  simp [hbk, hblob]

/-- Witness for C9: an orphaned blob with no catalog rows at all. -/
theorem orphan_blob_downloadable_witness :
    demoCfgLocal.backend = .localFs ∧ ReqEnv.ok.fileOpenFails = false ∧
    blobLookup ([(("ghost-lib", "0.1.0"), [7, 7, 7])] :
      List (BlobKey × Bytes)) ("ghost-lib", "0.1.0") = some [7, 7, 7] ∧
    get_crate_by_name ([] : List CrateRow) "ghost-lib" = none ∧
    download_handler demoCfgLocal ReqEnv.ok "ghost-lib" "0.1.0"
        ⟨[(("ghost-lib", "0.1.0"), [7, 7, 7])], [], [], 0⟩ =
      (.ok [7, 7, 7], ⟨[(("ghost-lib", "0.1.0"), [7, 7, 7])], [], [], 0⟩) :=
  ⟨rfl, rfl, by decide, rfl,
   orphan_blob_downloadable demoCfgLocal ReqEnv.ok rfl rfl "ghost-lib" "0.1.0"
     ⟨[(("ghost-lib", "0.1.0"), [7, 7, 7])], [], [], 0⟩ [7, 7, 7] (by decide) rfl⟩

/-- C10: the search handler's page is capped at
`min(per_page.getD 10, 100)` rows, whatever `per_page` the client sent
(default 10 when absent). -/
theorem search_page_size_capped (params : SearchQuery) (crates : List CrateRow) :
    (search_handler params crates).1.length ≤ min (params.per_page.getD 10) 100 := by
  unfold search_handler search_crates
  rw [List.length_take]
  exact Nat.min_le_left _ _

end GhostCrate
